import Mathlib

/-!
Verification of the pricing engine of the Demo repository.

The development shallowly embeds, in exact rational arithmetic:
  * `calculate_optimal_pricing` from `src/server/tools.py` (lines 766-905),
    together with its helper `_get_seasonal_multiplier`;
  * `price_override` from `src/server/app.py` (lines 1088-1160).

Machine floats of the source are modelled as `ℚ`; the Python builtins
`round` (banker rounding to `n` decimal places) and `int` (truncation
toward zero) are modelled exactly by `pyRoundInt` / `pyRound` / `pyInt`.
The `confidence_score` and free-text `reasoning` fields of the result are
not modelled: no stated property mentions them and they do not feed back
into any modelled field.  The target date enters the computation only
through `weekday()`, `month` and the lead time in days, so it is embedded
as the record `DateInfo` of those three projections.
-/

namespace Demo

/-- Banker rounding of a rational to an integer, as Python `round(x)`:
nearest integer, ties to the even one. -/
def pyRoundInt (q : ℚ) : ℤ :=
  if q - ⌊q⌋ < 1/2 then ⌊q⌋
  else if 1/2 < q - ⌊q⌋ then ⌊q⌋ + 1
  else if Even ⌊q⌋ then ⌊q⌋ else ⌊q⌋ + 1

/-- Python `round(q, n)` where `s = 10^n` is the scaling factor. -/
def pyRound (s : ℚ) (q : ℚ) : ℚ := (pyRoundInt (q * s) : ℚ) / s

/-- Python `round(q, 2)`. -/
def round2 (q : ℚ) : ℚ := pyRound 100 q

/-- Python `round(q, 1)`. -/
def round1 (q : ℚ) : ℚ := pyRound 10 q

/-- Python `int(q)`: truncation toward zero. -/
def pyInt (q : ℚ) : ℤ := if 0 ≤ q then ⌊q⌋ else ⌈q⌉

/-- Stable ascending insertion of one element, used to model Python
`sorted`. Only price values are sorted, so any sorted permutation is the
list `sorted` returns. -/
def insertAsc (x : ℚ) : List ℚ → List ℚ
  | [] => [x]
  | y :: ys => if x ≤ y then x :: y :: ys else y :: insertAsc x ys

/-- Python `sorted(prices)`, ascending. -/
def sortAsc (l : List ℚ) : List ℚ := l.foldr insertAsc []

/-- Descending insertion of one element. -/
def insertDesc (x : ℚ) : List ℚ → List ℚ
  | [] => [x]
  | y :: ys => if y ≤ x then x :: y :: ys else y :: insertDesc x ys

/-- Python `sorted(prices, reverse=True)`, descending. -/
def sortDesc (l : List ℚ) : List ℚ := l.foldr insertDesc []

/-- Python negative-index-aware list access `l[i]`, `none` on IndexError. -/
def pyGet (l : List ℚ) (i : ℤ) : Option ℚ :=
  if 0 ≤ i then l.get? i.toNat
  else if 0 ≤ i + l.length then l.get? (i + l.length).toNat
  else none

/-- One competitor record as consumed by the engine: the price field
read with default 0, as in `c.get` at `tools.py` line 783. -/
structure Competitor where
  price : ℚ
deriving DecidableEq

/-- One market event as consumed by the engine. -/
structure MarketEvent where
  name : String
  impact : String
deriving DecidableEq

/-- Hotel configuration after the `{**base_config, **hotel_config}` merge
of `tools.py` line 780 (`starRating` is carried because requests supply
it; `calculate_optimal_pricing` never reads it). -/
structure HotelConfig where
  totalRooms : ℤ
  baseOccupancy : ℚ
  minPrice : ℚ
  maxPrice : ℚ
  starRating : ℤ
deriving DecidableEq

/-- The projections of the target date and of `datetime.now()` the code
actually uses: `target_date.weekday()` (0 = Monday), `target_date.month`,
and `(target_date - datetime.now()).days`. -/
structure DateInfo where
  weekday : ℕ
  month : ℕ
  leadTime : ℤ
deriving DecidableEq

/-- Summary built at `tools.py` lines 787-792 when at least one filtered
price exists. -/
structure Stats where
  statMin : ℚ
  statMax : ℚ
  avg : ℚ
  median : ℚ
deriving DecidableEq

/-- Model of `competitor_prices`: prices strictly above 50 (`tools.py` line 783). -/
def filteredPrices (cs : List Competitor) : List ℚ :=
  (cs.map Competitor.price).filter (fun p => 50 < p)

/-- Model of `competitor_stats` of `tools.py` lines 785-792: `{}` (here `none`)
when no filtered price exists, otherwise min / max / mean / lower median
`sorted(prices)[len(prices)//2]`. -/
def statsOf : List ℚ → Option Stats
  | [] => none
  | p :: rest =>
    some { statMin := rest.foldl min p
           statMax := rest.foldl max p
           avg := (p :: rest).sum / ((p :: rest).length : ℚ)
           median := (sortAsc (p :: rest)).getD ((p :: rest).length / 2) 0 }

/-- Mean of a list of prices (total: `0` for the empty list). -/
def avgOf (ps : List ℚ) : ℚ := ps.sum / (ps.length : ℚ)

/-- Model of `base_price` of `tools.py` lines 793-795: `avg * 0.92` when filtered
prices exist, otherwise the flat fallback `150`. -/
def basePrice (cs : List Competitor) : ℚ :=
  match statsOf (filteredPrices cs) with
  | some s => s.avg * (92/100)
  | none => 150

/-- Model of `high_impact_events` (`tools.py` line 802). -/
def highEvents (es : List MarketEvent) : List MarketEvent :=
  es.filter (fun e => e.impact = "high")

/-- Model of `medium_impact_events` (`tools.py` line 803). -/
def mediumEvents (es : List MarketEvent) : List MarketEvent :=
  es.filter (fun e => e.impact = "medium")

/-- Model of `demand_multiplier` of `tools.py` lines 799-810: flat `1.35` when any
high-impact event exists, else flat `1.15` when any medium-impact event
exists, else `1.0`. -/
def demandMultiplier (es : List MarketEvent) : ℚ :=
  if highEvents es ≠ [] then 135/100
  else if mediumEvents es ≠ [] then 115/100
  else 1

/-- Model of `occupancy_boost` of `tools.py` lines 800-810. -/
def occupancyBoost (es : List MarketEvent) : ℚ :=
  if highEvents es ≠ [] then 20
  else if mediumEvents es ≠ [] then 10
  else 0

/-- Model of the lookup `dow_multipliers.get` with default 1.0 (`tools.py` lines 816-819). -/
def dowMultiplier (d : ℕ) : ℚ :=
  match d with
  | 0 => 95/100
  | 1 => 98/100
  | 2 => 1
  | 3 => 105/100
  | 4 => 120/100
  | 5 => 125/100
  | 6 => 110/100
  | _ => 1

/-- Python `"Canada" in location`. -/
def containsCanada (loc : String) : Bool :=
  (loc.splitOn "Canada").length ≠ 1

/-- Model of `_get_seasonal_multiplier` of `tools.py` lines 882-905. -/
def seasonalMultiplier (loc : String) (month : ℕ) : ℚ :=
  if containsCanada loc then
    if month = 6 ∨ month = 7 ∨ month = 8 then 120/100
    else if month = 12 ∨ month = 1 then 115/100
    else if month = 3 ∨ month = 4 then 110/100
    else if month = 2 ∨ month = 11 then 85/100
    else 1
  else
    if month = 6 ∨ month = 7 ∨ month = 8 ∨ month = 12 then 115/100
    else if month = 1 ∨ month = 2 then 90/100
    else 1

/-- Model of `lead_time_multiplier` of `tools.py` lines 824-828. -/
def leadTimeMultiplier (lead : ℤ) (hasHigh : Bool) : ℚ :=
  if lead < 7 ∧ hasHigh then 110/100
  else if 60 < lead then 95/100
  else 1

/-- Model of `calculated_price` of `tools.py` lines 830-832. -/
def calculatedPrice (loc : String) (date : DateInfo) (cs : List Competitor)
    (es : List MarketEvent) : ℚ :=
  basePrice cs * demandMultiplier es * dowMultiplier date.weekday *
    seasonalMultiplier loc date.month *
    leadTimeMultiplier date.leadTime (highEvents es ≠ [])

/-- Model of `recommended_price` of `tools.py` lines 834-835: clamp into
`[minPrice, maxPrice]` then `round(.., 2)`. -/
def recommendedPrice (loc : String) (date : DateInfo) (cfg : HotelConfig)
    (cs : List Competitor) (es : List MarketEvent) : ℚ :=
  round2 (max cfg.minPrice (min cfg.maxPrice (calculatedPrice loc date cs es)))

/-- Model of `projected_occupancy` of `tools.py` lines 837-849, before the final
`round(.., 1)` of the output: event boost capped at 95, then, when
competitor stats exist and their average is truthy, the additive linear
elasticity adjustment `(1 - price_ratio) * 25` clamped into `[30, 95]`. -/
def projectedOccupancy (loc : String) (date : DateInfo) (cfg : HotelConfig)
    (cs : List Competitor) (es : List MarketEvent) : ℚ :=
  let occ0 := min 95 (cfg.baseOccupancy + occupancyBoost es)
  match statsOf (filteredPrices cs) with
  | none => occ0
  | some s =>
    if s.avg ≠ 0 then
      min 95 (max 30 (occ0 + (1 - recommendedPrice loc date cfg cs es / s.avg) * 25))
    else occ0

/-- The `kpis` block of the result (`tools.py` lines 851-855, 874-879). -/
structure KPIs where
  adr : ℚ
  revpar : ℚ
  projected_revenue : ℚ
  rooms_sold : ℤ
deriving DecidableEq

/-- The `competitor_analysis` block (`tools.py` lines 868-872); the
display string `price_range` is presentation only and not modelled. -/
structure CompetitorAnalysis where
  count : ℕ
  avg_price : ℚ
deriving DecidableEq

/-- The modelled fields of the dictionary returned by
`calculate_optimal_pricing` (`tools.py` lines 862-880). -/
structure PricingResult where
  recommended_price : ℚ
  projected_occupancy : ℚ
  market_position : String
  competitor_analysis : CompetitorAnalysis
  demand_drivers : List String
  kpis : KPIs
deriving DecidableEq

/-- Model of `calculate_optimal_pricing` of `tools.py` lines 766-880. -/
def calculate_optimal_pricing (loc : String) (date : DateInfo)
    (cfg : HotelConfig) (cs : List Competitor) (es : List MarketEvent) :
    PricingResult :=
  let stats := statsOf (filteredPrices cs)
  let recommended := recommendedPrice loc date cfg cs es
  let occ := projectedOccupancy loc date cfg cs es
  let rooms_sold := pyInt ((cfg.totalRooms : ℚ) * (occ / 100))
  let adr := recommended
  let revpar := adr * (occ / 100)
  let total_revenue := (rooms_sold : ℚ) * adr
  { recommended_price := recommended
    projected_occupancy := round1 occ
    market_position := match stats with
      | some _ => "competitive"
      | none => "market_rate"
    competitor_analysis :=
      { count := cs.length
        avg_price := round2 (match stats with | some s => s.avg | none => 0) }
    demand_drivers :=
      (es.filter (fun e => e.impact = "high" ∨ e.impact = "medium")).map
        MarketEvent.name
    kpis :=
      { adr := round2 adr
        revpar := round2 revpar
        projected_revenue := round2 total_revenue
        rooms_sold := rooms_sold } }

/-- The modelled fields of the JSON returned by `price_override`
(`app.py` lines 1144-1156). -/
structure OverrideResult where
  override_price : ℚ
  market_rank : ℤ
  projected_occupancy : ℚ
  adr : ℚ
  revpar : ℚ
  projected_revenue : ℚ
  rooms_sold : ℤ
  positioning : String
deriving DecidableEq

/-- Target-price selection of `price_override` (`app.py` lines 1102-1118)
on the descending-sorted price list.  The embedding of `price_override` is
on competitor price lists; the empty list returns the 400-error payload,
and a Python exception escaping the body (IndexError on the negative-rank
path, ZeroDivisionError when the average price is zero) becomes the
500-error payload, carrying the exception text. -/
def targetPrice (desiredRank : ℤ) (comps sorted : List ℚ) : Except String ℚ :=
  if desiredRank ≤ (comps.length : ℤ) then
    if desiredRank = 1 then .ok (sorted.headD 0 * (105/100))
    else
      match pyGet sorted (desiredRank - 2), pyGet sorted (desiredRank - 1) with
      | some hi, some lo => .ok ((hi + lo) / 2)
      | _, _ => .error "list index out of range"
  else .ok (sorted.getLastD 0 * (95/100))

/-- Model of `price_override` of `app.py` lines 1088-1160 (continued): dispatch on
the target-price computation, then occupancy adjustment and KPIs. -/
def price_override (desiredRank : ℤ) (competitors : List ℚ)
    (cfg : HotelConfig) : Except String OverrideResult :=
  if competitors = [] then .error "No competitor data available"
  else
    match targetPrice desiredRank competitors (sortDesc competitors) with
    | .error e => .error e
    | .ok t =>
      let target := max cfg.minPrice (min cfg.maxPrice t)
      let avg := competitors.sum / (competitors.length : ℚ)
      if avg = 0 then .error "division by zero"
      else
        let rel := target / avg
        let adj : ℚ := if 11/10 < rel then 9/10
          else if rel < 9/10 then 11/10 else 1
        let occ := min 95 (cfg.baseOccupancy * adj)
        let rooms_sold := pyInt ((cfg.totalRooms : ℚ) * (occ / 100))
        let revpar := target * (occ / 100)
        .ok { override_price := round2 target
              market_rank := desiredRank
              projected_occupancy := round1 occ
              adr := round2 target
              revpar := round2 revpar
              projected_revenue := round2 ((rooms_sold : ℚ) * target)
              rooms_sold := rooms_sold
              positioning := if 11/10 < rel then "premium"
                else if rel < 9/10 then "value" else "competitive" }

/-! ### Specification-side definitions

These follow the words of the specification (§4.1 step percentiles, §4.4
step 3 base-price policy, §4.3 step 3 elasticity bands) and exist only to
be compared with the definitions embedded from the source. -/

/-- Percentile `prices[n/4]` of the sorted list, as specified in §4.1. -/
def specP25 (ps : List ℚ) : ℚ := (sortAsc ps).getD (ps.length / 4) 0

/-- Percentile `prices[3n/4]` of the sorted list, as specified in §4.1. -/
def specP75 (ps : List ℚ) : ℚ := (sortAsc ps).getD (3 * ps.length / 4) 0

/-- Median `prices[n/2]` of the sorted list, as specified in §4.1. -/
def specMedian (ps : List ℚ) : ℚ := (sortAsc ps).getD (ps.length / 2) 0

/-- Base-price policy claimed in §4.4 step 3: percentile position chosen
by star rating, star-linear fallback without data. -/
def specBasePrice (star : ℤ) (cs : List Competitor) : ℚ :=
  if filteredPrices cs ≠ [] then
    if 4 ≤ star then specP75 (filteredPrices cs)
    else if star = 3 then specMedian (filteredPrices cs)
    else specP25 (filteredPrices cs)
  else 80 + ((star : ℚ) - 1) * 40

/-- Elasticity band table claimed in §4.3 step 3: multiplicative
occupancy factor keyed by the price ratio. -/
def specElasticityFactor (r : ℚ) : ℚ :=
  if 13/10 < r then 3/4
  else if 115/100 < r then 85/100
  else if 105/100 < r then 92/100
  else if r < 85/100 then 12/10
  else if r < 95/100 then 11/10
  else 1


/-! ### Properties of the Python rounding and truncation models -/

theorem pyRoundInt_ge_floor (q : ℚ) : ⌊q⌋ ≤ pyRoundInt q := by
  unfold pyRoundInt
  split_ifs <;> omega

theorem pyRoundInt_le_of_le {q : ℚ} {M : ℤ} (h : q ≤ (M : ℚ)) :
    pyRoundInt q ≤ M := by
  have hfl : ⌊q⌋ ≤ M := by
    have := Int.floor_le_floor h
    simpa using this
  have hup : 1/2 ≤ q - ⌊q⌋ → ⌊q⌋ + 1 ≤ M := by
    intro hh
    have h1 : (⌊q⌋ : ℚ) < q := by linarith
    have h2 : (⌊q⌋ : ℚ) < (M : ℚ) := lt_of_lt_of_le h1 h
    have : ⌊q⌋ < M := by exact_mod_cast h2
    omega
  unfold pyRoundInt
  split_ifs with h1 h2 h3
  · exact hfl
  · exact hup (by linarith)
  · exact hfl
  · exact hup (by linarith)

theorem pyRoundInt_ge_of_ge {q : ℚ} {m : ℤ} (h : (m : ℚ) ≤ q) :
    m ≤ pyRoundInt q :=
  le_trans (Int.le_floor.mpr h) (pyRoundInt_ge_floor q)

theorem pyRoundInt_intCast (n : ℤ) : pyRoundInt (n : ℚ) = n := by
  unfold pyRoundInt
  norm_num

theorem abs_pyRoundInt_sub (q : ℚ) : |(pyRoundInt q : ℚ) - q| ≤ 1/2 := by
  have h1 := Int.floor_le q
  have h2 := Int.lt_floor_add_one q
  unfold pyRoundInt
  split_ifs with ha hb hc <;> rw [abs_le] <;> constructor <;> push_cast <;>
    linarith

theorem pyRound_le_of_le {s q b : ℚ} {mb : ℤ} (hs : 0 < s)
    (hb : b = (mb : ℚ) / s) (h : q ≤ b) : pyRound s q ≤ b := by
  have hqs : q * s ≤ (mb : ℚ) := by
    have := mul_le_mul_of_nonneg_right h hs.le
    rwa [hb, div_mul_cancel₀ _ hs.ne'] at this
  have hr : ((pyRoundInt (q * s) : ℤ) : ℚ) ≤ (mb : ℚ) := by
    exact_mod_cast pyRoundInt_le_of_le hqs
  rw [pyRound, hb]
  exact (div_le_div_iff_of_pos_right hs).mpr hr

theorem pyRound_ge_of_ge {s q a : ℚ} {ma : ℤ} (hs : 0 < s)
    (ha : a = (ma : ℚ) / s) (h : a ≤ q) : a ≤ pyRound s q := by
  have hqs : (ma : ℚ) ≤ q * s := by
    have := mul_le_mul_of_nonneg_right h hs.le
    rwa [ha, div_mul_cancel₀ _ hs.ne'] at this
  have hr : (ma : ℚ) ≤ ((pyRoundInt (q * s) : ℤ) : ℚ) := by
    exact_mod_cast pyRoundInt_ge_of_ge hqs
  rw [pyRound, ha]
  exact (div_le_div_iff_of_pos_right hs).mpr hr

theorem pyRound_eq_self {s q : ℚ} {m : ℤ} (hs : 0 < s)
    (h : q = (m : ℚ) / s) : pyRound s q = q := by
  rw [pyRound, h, div_mul_cancel₀ _ hs.ne', pyRoundInt_intCast]

theorem abs_pyRound_sub {s : ℚ} (hs : 0 < s) (q : ℚ) :
    |pyRound s q - q| ≤ 1 / (2 * s) := by
  have h := abs_pyRoundInt_sub (q * s)
  have heq : pyRound s q - q = ((pyRoundInt (q * s) : ℚ) - q * s) / s := by
    rw [pyRound]
    field_simp
    ring
  rw [heq, abs_div, abs_of_pos hs]
  calc |(pyRoundInt (q * s) : ℚ) - q * s| / s ≤ (1/2) / s := by gcongr
    _ = 1 / (2 * s) := by rw [div_div]

theorem round2_le_of_le {q b : ℚ} {mb : ℤ} (hb : b = (mb : ℚ) / 100)
    (h : q ≤ b) : round2 q ≤ b :=
  pyRound_le_of_le (by norm_num) hb h

theorem round2_ge_of_ge {q a : ℚ} {ma : ℤ} (ha : a = (ma : ℚ) / 100)
    (h : a ≤ q) : a ≤ round2 q :=
  pyRound_ge_of_ge (by norm_num) ha h

theorem round1_le_of_le (mb : ℤ) {q b : ℚ} (hb : b = (mb : ℚ) / 10)
    (h : q ≤ b) : round1 q ≤ b :=
  pyRound_le_of_le (by norm_num) hb h

theorem round1_ge_of_ge (ma : ℤ) {q a : ℚ} (ha : a = (ma : ℚ) / 10)
    (h : a ≤ q) : a ≤ round1 q :=
  pyRound_ge_of_ge (by norm_num) ha h

theorem round2_eq_self {q : ℚ} {m : ℤ} (h : q = (m : ℚ) / 100) :
    round2 q = q :=
  pyRound_eq_self (by norm_num) h

theorem round2_num (q : ℚ) : round2 q = ((pyRoundInt (q * 100) : ℤ) : ℚ) / 100 :=
  rfl

theorem round2_round2 (q : ℚ) : round2 (round2 q) = round2 q :=
  round2_eq_self (round2_num q)

theorem abs_round2_sub (q : ℚ) : |round2 q - q| ≤ 1/200 := by
  have := abs_pyRound_sub (show (0:ℚ) < 100 by norm_num) q
  norm_num [round2] at this ⊢
  linarith

theorem pyInt_eq_floor {q : ℚ} (h : 0 ≤ q) : pyInt q = ⌊q⌋ := by
  simp [pyInt, h]

/-! ### List and statistics lemmas -/

theorem length_insertDesc (x : ℚ) (l : List ℚ) :
    (insertDesc x l).length = l.length + 1 := by
  induction l with
  | nil => rfl
  | cons y ys ih =>
    unfold insertDesc
    split_ifs <;> simp [ih]

theorem length_sortDesc (l : List ℚ) : (sortDesc l).length = l.length := by
  induction l with
  | nil => rfl
  | cons x xs ih =>
    show (insertDesc x (sortDesc xs)).length = xs.length + 1
    rw [length_insertDesc, ih]

theorem pyGet_some (l : List ℚ) (i : ℤ) (h0 : 0 ≤ i) (hl : i < l.length) :
    ∃ x, pyGet l i = some x := by
  unfold pyGet
  rw [if_pos h0]
  have hn : i.toNat < l.length := by omega
  exact ⟨l.get ⟨i.toNat, hn⟩, List.get?_eq_get hn⟩

theorem statsOf_eq_none {ps : List ℚ} : statsOf ps = none ↔ ps = [] := by
  cases ps <;> simp [statsOf]

theorem statsOf_avg {ps : List ℚ} {s : Stats} (h : statsOf ps = some s) :
    s.avg = avgOf ps := by
  cases ps with
  | nil => simp [statsOf] at h
  | cons p rest =>
    simp only [statsOf, Option.some.injEq] at h
    rw [← h, avgOf]

theorem avgOf_filtered_pos {cs : List Competitor}
    (h : filteredPrices cs ≠ []) : 0 < avgOf (filteredPrices cs) := by
  have hpos : ∀ p ∈ filteredPrices cs, 0 < p := by
    intro p hp
    have h50 := List.of_mem_filter hp
    simp only [decide_eq_true_eq] at h50
    linarith
  have hsum : 0 < (filteredPrices cs).sum := List.sum_pos _ hpos h
  have hlen : 0 < (filteredPrices cs).length := List.length_pos.mpr h
  exact div_pos hsum (by exact_mod_cast hlen)

/-! ### Extraction lemmas for the fields of `calculate_optimal_pricing` -/

theorem calcP_recommended (loc : String) (date : DateInfo) (cfg : HotelConfig)
    (cs : List Competitor) (es : List MarketEvent) :
    (calculate_optimal_pricing loc date cfg cs es).recommended_price =
      recommendedPrice loc date cfg cs es := rfl

theorem calcP_occ (loc : String) (date : DateInfo) (cfg : HotelConfig)
    (cs : List Competitor) (es : List MarketEvent) :
    (calculate_optimal_pricing loc date cfg cs es).projected_occupancy =
      round1 (projectedOccupancy loc date cfg cs es) := rfl

theorem calcP_rooms (loc : String) (date : DateInfo) (cfg : HotelConfig)
    (cs : List Competitor) (es : List MarketEvent) :
    (calculate_optimal_pricing loc date cfg cs es).kpis.rooms_sold =
      pyInt ((cfg.totalRooms : ℚ) * (projectedOccupancy loc date cfg cs es / 100)) := rfl

theorem calcP_adr (loc : String) (date : DateInfo) (cfg : HotelConfig)
    (cs : List Competitor) (es : List MarketEvent) :
    (calculate_optimal_pricing loc date cfg cs es).kpis.adr =
      round2 (recommendedPrice loc date cfg cs es) := rfl

theorem calcP_revpar (loc : String) (date : DateInfo) (cfg : HotelConfig)
    (cs : List Competitor) (es : List MarketEvent) :
    (calculate_optimal_pricing loc date cfg cs es).kpis.revpar =
      round2 (recommendedPrice loc date cfg cs es *
        (projectedOccupancy loc date cfg cs es / 100)) := rfl

theorem calcP_revenue (loc : String) (date : DateInfo) (cfg : HotelConfig)
    (cs : List Competitor) (es : List MarketEvent) :
    (calculate_optimal_pricing loc date cfg cs es).kpis.projected_revenue =
      round2 ((pyInt ((cfg.totalRooms : ℚ) *
        (projectedOccupancy loc date cfg cs es / 100)) : ℚ) *
        recommendedPrice loc date cfg cs es) := rfl

theorem calcP_count (loc : String) (date : DateInfo) (cfg : HotelConfig)
    (cs : List Competitor) (es : List MarketEvent) :
    (calculate_optimal_pricing loc date cfg cs es).competitor_analysis.count =
      cs.length := rfl

theorem calcP_market_position (loc : String) (date : DateInfo)
    (cfg : HotelConfig) (cs : List Competitor) (es : List MarketEvent) :
    (calculate_optimal_pricing loc date cfg cs es).market_position =
      if filteredPrices cs = [] then "market_rate" else "competitive" := by
  show (match statsOf (filteredPrices cs) with
      | some _ => "competitive" | none => "market_rate") = _
  cases hps : filteredPrices cs with
  | nil => simp [statsOf]
  | cons p rest => simp [statsOf]

/-! ### The occupancy model in closed form, and its bounds -/

theorem occupancyBoost_nonneg (es : List MarketEvent) :
    0 ≤ occupancyBoost es := by
  unfold occupancyBoost
  split_ifs <;> norm_num

theorem projectedOccupancy_eq (loc : String) (date : DateInfo)
    (cfg : HotelConfig) (cs : List Competitor) (es : List MarketEvent) :
    projectedOccupancy loc date cfg cs es =
      if filteredPrices cs = [] then
        min 95 (cfg.baseOccupancy + occupancyBoost es)
      else
        min 95 (max 30 (min 95 (cfg.baseOccupancy + occupancyBoost es) +
          (1 - recommendedPrice loc date cfg cs es / avgOf (filteredPrices cs)) * 25)) := by
  unfold projectedOccupancy
  cases hps : filteredPrices cs with
  | nil => simp [statsOf]
  | cons p rest =>
    have havg : 0 < avgOf (p :: rest) := by
      have := avgOf_filtered_pos (show filteredPrices cs ≠ [] by rw [hps]; simp)
      rwa [hps] at this
    have hne : ((p :: rest).sum / ((p :: rest).length : ℚ)) ≠ 0 := ne_of_gt havg
    simp only [statsOf, List.cons_ne_nil, ite_false, if_false, if_neg (List.cons_ne_nil p rest)]
    rw [if_pos hne]
    rfl

theorem projectedOccupancy_le_95 (loc : String) (date : DateInfo)
    (cfg : HotelConfig) (cs : List Competitor) (es : List MarketEvent) :
    projectedOccupancy loc date cfg cs es ≤ 95 := by
  rw [projectedOccupancy_eq]
  split_ifs <;> exact min_le_left _ _

theorem projectedOccupancy_nonneg (loc : String) (date : DateInfo)
    {cfg : HotelConfig} (cs : List Competitor) (es : List MarketEvent)
    (hb : 0 ≤ cfg.baseOccupancy) :
    0 ≤ projectedOccupancy loc date cfg cs es := by
  rw [projectedOccupancy_eq]
  have h0 : (0:ℚ) ≤ min 95 (cfg.baseOccupancy + occupancyBoost es) :=
    le_min (by norm_num) (add_nonneg hb (occupancyBoost_nonneg es))
  split_ifs
  · exact h0
  · exact le_min (by norm_num) (le_trans (by norm_num) (le_max_left 30 _))

theorem projectedOccupancy_ge_30 (loc : String) (date : DateInfo)
    (cfg : HotelConfig) (cs : List Competitor) (es : List MarketEvent)
    (h : filteredPrices cs ≠ []) :
    30 ≤ projectedOccupancy loc date cfg cs es := by
  rw [projectedOccupancy_eq, if_neg h]
  exact le_min (by norm_num) (le_max_left 30 _)

/-- Both seasonal branches return `1` for October, so concrete instances
need not evaluate the location string. -/
theorem seasonalMultiplier_oct (loc : String) : seasonalMultiplier loc 10 = 1 := by
  cases h : containsCanada loc <;> simp [seasonalMultiplier, h]

/-! ### Claim C4 -/

/-- C4 fails on the code: for a single competitor priced 100 and star
rating 4 the claimed base price is the 75th percentile (100), but the
implementation returns `avg * 0.92 = 92` whatever the star rating. -/
theorem C4_counterexample :
    basePrice [⟨100⟩] = 92 ∧ specBasePrice 4 [⟨100⟩] = 100 ∧
    basePrice [⟨100⟩] ≠ specBasePrice 4 [⟨100⟩] := by
  refine ⟨?_, ?_, ?_⟩ <;>
    norm_num [basePrice, specBasePrice, specP75, filteredPrices, statsOf,
      sortAsc, insertAsc]

/-- C4 (amended): the base price is `0.92` times the average of the
filtered competitor prices when any price above 50 exists and the flat
fallback `150` otherwise; the star rating plays no role anywhere in the
pricing computation. -/
theorem C4_base_price_policy (loc : String) (date : DateInfo)
    (cfg : HotelConfig) (cs : List Competitor) (es : List MarketEvent)
    (s₁ s₂ : ℤ) :
    basePrice cs = (if filteredPrices cs = [] then 150
      else (92/100) * avgOf (filteredPrices cs)) ∧
    calculate_optimal_pricing loc date { cfg with starRating := s₁ } cs es =
      calculate_optimal_pricing loc date { cfg with starRating := s₂ } cs es := by
  constructor
  · unfold basePrice
    cases hps : filteredPrices cs with
    | nil => simp [statsOf]
    | cons p rest =>
      rw [if_neg (List.cons_ne_nil p rest)]
      show ((p :: rest).sum / ((p :: rest).length : ℚ)) * (92/100) = _
      rw [mul_comm]
      rfl
  · rfl

/-! ### Claim C5 -/

/-- C5 fails on the code: with two high-impact events the claimed
contribution is `1.25 + 0.1 * 2 = 1.45`, but the implementation uses the
flat multiplier `1.35` regardless of the count. -/
theorem C5_counterexample :
    demandMultiplier [⟨"A", "high"⟩, ⟨"B", "high"⟩] = 135/100 ∧
    demandMultiplier [⟨"A", "high"⟩, ⟨"B", "high"⟩] ≠ 125/100 + (1/10) * 2 := by
  have hh : highEvents [⟨"A", "high"⟩, ⟨"B", "high"⟩] =
      [⟨"A", "high"⟩, ⟨"B", "high"⟩] := by simp [highEvents]
  refine ⟨?_, ?_⟩ <;>
    rw [demandMultiplier, if_pos (by rw [hh]; exact List.cons_ne_nil _ _)]
  norm_num

/-- C5 (amended): the event contribution to the demand multiplier is the
flat factor `1.35` when at least one high-impact event exists, else the
flat factor `1.15` when at least one medium-impact event exists, else `1`
— independent of how many such events there are.  The occupancy boost
follows the same case split with `20 / 10 / 0`. -/
theorem C5_event_multiplier (es : List MarketEvent) :
    demandMultiplier es =
      (if 0 < (highEvents es).length then 135/100
       else if 0 < (mediumEvents es).length then 115/100 else 1) ∧
    occupancyBoost es =
      (if 0 < (highEvents es).length then 20
       else if 0 < (mediumEvents es).length then 10 else 0) := by
  constructor
  · unfold demandMultiplier
    by_cases h1 : highEvents es = [] <;> by_cases h2 : mediumEvents es = [] <;>
      simp [h1, h2, List.length_pos]
  · unfold occupancyBoost
    by_cases h1 : highEvents es = [] <;> by_cases h2 : mediumEvents es = [] <;>
      simp [h1, h2, List.length_pos]

/-! ### Claim C7 -/

/-- C7 fails on the code: with average competitor price 100 and a
recommended price of 170.78 (ratio well above 1.1) the claimed label is
"premium", but the implementation labels every result with competitor
data "competitive". -/
theorem C7_counterexample :
    avgOf (filteredPrices [⟨100⟩, ⟨100⟩]) * (11/10) <
      (calculate_optimal_pricing "Miami" ⟨5, 10, 3⟩ ⟨100, 65, 80, 500, 3⟩
        [⟨100⟩, ⟨100⟩] [⟨"Festival", "high"⟩]).recommended_price ∧
    (calculate_optimal_pricing "Miami" ⟨5, 10, 3⟩ ⟨100, 65, 80, 500, 3⟩
        [⟨100⟩, ⟨100⟩] [⟨"Festival", "high"⟩]).market_position ≠ "premium" := by
  constructor
  · norm_num [calcP_recommended, recommendedPrice, calculatedPrice, basePrice,
      statsOf, filteredPrices, demandMultiplier, highEvents, mediumEvents,
      dowMultiplier, seasonalMultiplier_oct, leadTimeMultiplier, round2,
      pyRound, pyRoundInt, avgOf, Int.even_iff]
  · rw [calcP_market_position]
    have hfil : filteredPrices [⟨100⟩, ⟨100⟩] = [100, 100] := by
      norm_num [filteredPrices]
    rw [hfil, if_neg (List.cons_ne_nil (100:ℚ) [100])]
    simp

/-- C7 (amended): the market_position label is "competitive" whenever at
least one competitor price above 50 exists — regardless of how the
recommended price compares with the competitor average — and
"market_rate" otherwise. -/
theorem C7_market_position (loc : String) (date : DateInfo)
    (cfg : HotelConfig) (cs : List Competitor) (es : List MarketEvent) :
    (calculate_optimal_pricing loc date cfg cs es).market_position =
      if filteredPrices cs = [] then "market_rate" else "competitive" :=
  calcP_market_position loc date cfg cs es

/-! ### Claim C10 -/

/-- C10: the reported competitor count is the raw input length, including
observations filtered out of the statistics; when every price is at most
50 the engine keeps `count = len(competitors) > 0` while pricing from the
no-data fallback base price 150 and labelling the market "market_rate". -/
theorem C10_raw_count (loc : String) (date : DateInfo) (cfg : HotelConfig)
    (cs : List Competitor) (es : List MarketEvent) :
    (calculate_optimal_pricing loc date cfg cs es).competitor_analysis.count =
      cs.length ∧
    ((∀ c ∈ cs, c.price ≤ 50) →
      basePrice cs = 150 ∧
      (calculate_optimal_pricing loc date cfg cs es).market_position =
        "market_rate" ∧
      (cs ≠ [] →
        0 < (calculate_optimal_pricing loc date cfg cs es).competitor_analysis.count)) := by
  refine ⟨calcP_count loc date cfg cs es, fun h => ?_⟩
  have hfil : filteredPrices cs = [] := by
    rw [filteredPrices, List.filter_eq_nil_iff]
    intro p hp
    obtain ⟨c, hc, rfl⟩ := List.mem_map.mp hp
    simp only [decide_eq_true_eq, not_lt]
    exact h c hc
  refine ⟨?_, ?_, fun hne => ?_⟩
  · unfold basePrice
    rw [hfil]
    rfl
  · rw [calcP_market_position, if_pos hfil]
  · rw [calcP_count]
    exact List.length_pos.mpr hne

/-- C10 witness at a concrete input: two competitors priced 30 and 50. -/
theorem C10_witness :
    basePrice [⟨30⟩, ⟨50⟩] = 150 ∧
    (calculate_optimal_pricing "Boston" ⟨2, 10, 30⟩ ⟨100, 65, 80, 500, 3⟩
        [⟨30⟩, ⟨50⟩] []).market_position = "market_rate" ∧
    0 < (calculate_optimal_pricing "Boston" ⟨2, 10, 30⟩ ⟨100, 65, 80, 500, 3⟩
        [⟨30⟩, ⟨50⟩] []).competitor_analysis.count := by
  have h := (C10_raw_count "Boston" ⟨2, 10, 30⟩ ⟨100, 65, 80, 500, 3⟩
    [⟨30⟩, ⟨50⟩] []).2 (by norm_num)
  exact ⟨h.1, h.2.1, h.2.2 (by simp)⟩

/-! ### Claim C1 -/

/-- C1 fails on the code for price limits that are not whole-cent values:
with `minPrice = 100.004 ≤ maxPrice = 500` and a calculated price below
the minimum, the clamp yields `100.004` but the final `round(.., 2)`
moves the result to `100.00`, strictly below `minPrice`. -/
theorem C1_counterexample :
    (⟨100, 65, 100 + 4/1000, 500, 3⟩ : HotelConfig).minPrice ≤
      (⟨100, 65, 100 + 4/1000, 500, 3⟩ : HotelConfig).maxPrice ∧
    (calculate_optimal_pricing "New York" ⟨2, 10, 30⟩
        ⟨100, 65, 100 + 4/1000, 500, 3⟩ [⟨60⟩, ⟨60⟩] []).recommended_price <
      (⟨100, 65, 100 + 4/1000, 500, 3⟩ : HotelConfig).minPrice := by
  constructor
  · norm_num
  · norm_num [calcP_recommended, recommendedPrice, calculatedPrice, basePrice,
      statsOf, filteredPrices, demandMultiplier, highEvents, mediumEvents,
      dowMultiplier, seasonalMultiplier_oct, leadTimeMultiplier, round2,
      pyRound, pyRoundInt]

/-- C1 (amended): whenever `minPrice ≤ maxPrice` and both limits are
whole-cent amounts (integer multiples of 0.01 — the only values the final
two-decimal rounding keeps fixed), the recommended price lies within
`[minPrice, maxPrice]`. -/
theorem C1_price_within_bounds (loc : String) (date : DateInfo)
    (cfg : HotelConfig) (cs : List Competitor) (es : List MarketEvent)
    (h : cfg.minPrice ≤ cfg.maxPrice)
    (hm : ∃ m : ℤ, cfg.minPrice = (m : ℚ) / 100)
    (hM : ∃ M : ℤ, cfg.maxPrice = (M : ℚ) / 100) :
    cfg.minPrice ≤
      (calculate_optimal_pricing loc date cfg cs es).recommended_price ∧
    (calculate_optimal_pricing loc date cfg cs es).recommended_price ≤
      cfg.maxPrice := by
  obtain ⟨m, hm⟩ := hm
  obtain ⟨M, hM⟩ := hM
  rw [calcP_recommended, recommendedPrice]
  exact ⟨round2_ge_of_ge hm (le_max_left _ _),
    round2_le_of_le hM (max_le h (min_le_left _ _))⟩

/-- C1 witness at the default configuration `[80, 500]`. -/
theorem C1_witness :
    (80 : ℚ) ≤ (calculate_optimal_pricing "Paris" ⟨0, 5, 10⟩
        ⟨100, 65, 80, 500, 3⟩ [] []).recommended_price ∧
    (calculate_optimal_pricing "Paris" ⟨0, 5, 10⟩
        ⟨100, 65, 80, 500, 3⟩ [] []).recommended_price ≤ 500 :=
  C1_price_within_bounds "Paris" ⟨0, 5, 10⟩ ⟨100, 65, 80, 500, 3⟩ [] []
    (by norm_num) ⟨8000, by norm_num⟩ ⟨50000, by norm_num⟩

/-! ### Claim C2 -/

/-- C2 fails on the reported fields: at this input the engine keeps the
unrounded occupancy 64.96 for the KPI computation (`rooms_sold = 64`) but
reports `projected_occupancy = 65.0` after one-decimal rounding, so
`floor(totalRooms * projected_occupancy / 100) = 65 ≠ 64`. -/
theorem C2_counterexample :
    (calculate_optimal_pricing "New York" ⟨2, 10, 30⟩
        ⟨100, 65, 1252/10, 500, 3⟩ [⟨120⟩, ⟨130⟩] []).kpis.rooms_sold ≠
      ⌊((⟨100, 65, 1252/10, 500, 3⟩ : HotelConfig).totalRooms : ℚ) *
        (calculate_optimal_pricing "New York" ⟨2, 10, 30⟩
          ⟨100, 65, 1252/10, 500, 3⟩ [⟨120⟩, ⟨130⟩] []).projected_occupancy
        / 100⌋ := by
  have hocc : (calculate_optimal_pricing "New York" ⟨2, 10, 30⟩
      ⟨100, 65, 1252/10, 500, 3⟩ [⟨120⟩, ⟨130⟩] []).projected_occupancy = 65 := by
    norm_num [calcP_occ, projectedOccupancy, recommendedPrice, calculatedPrice,
      basePrice, statsOf, filteredPrices, demandMultiplier, highEvents,
      mediumEvents, occupancyBoost, dowMultiplier, seasonalMultiplier_oct,
      leadTimeMultiplier, round2, round1, pyRound, pyRoundInt]
  have hrooms : (calculate_optimal_pricing "New York" ⟨2, 10, 30⟩
      ⟨100, 65, 1252/10, 500, 3⟩ [⟨120⟩, ⟨130⟩] []).kpis.rooms_sold = 64 := by
    norm_num [calcP_rooms, projectedOccupancy, recommendedPrice, calculatedPrice,
      basePrice, statsOf, filteredPrices, demandMultiplier, highEvents,
      mediumEvents, occupancyBoost, dowMultiplier, seasonalMultiplier_oct,
      leadTimeMultiplier, round2, pyRound, pyRoundInt, pyInt]
  rw [hocc, hrooms]
  norm_num

/-- C2 (amended): the KPI fields are mutually consistent with the
unrounded internal projected occupancy (not with the one-decimal-rounded
reported field): `rooms_sold = floor(totalRooms * occ / 100)`,
`projected_revenue = rooms_sold * adr` exactly, and `revpar` equals
`adr * occ / 100` within the two-decimal rounding tolerance `1/200`. -/
theorem C2_kpis_consistent (loc : String) (date : DateInfo)
    (cfg : HotelConfig) (cs : List Competitor) (es : List MarketEvent)
    (hb : 0 ≤ cfg.baseOccupancy) (ht : 0 ≤ cfg.totalRooms) :
    (calculate_optimal_pricing loc date cfg cs es).kpis.rooms_sold =
      ⌊(cfg.totalRooms : ℚ) * (projectedOccupancy loc date cfg cs es / 100)⌋ ∧
    (calculate_optimal_pricing loc date cfg cs es).kpis.projected_revenue =
      ((calculate_optimal_pricing loc date cfg cs es).kpis.rooms_sold : ℚ) *
        (calculate_optimal_pricing loc date cfg cs es).kpis.adr ∧
    |(calculate_optimal_pricing loc date cfg cs es).kpis.revpar -
      (calculate_optimal_pricing loc date cfg cs es).kpis.adr *
        (projectedOccupancy loc date cfg cs es / 100)| ≤ 1/200 := by
  have hocc := projectedOccupancy_nonneg loc date cs es hb
  have hprod : 0 ≤ (cfg.totalRooms : ℚ) *
      (projectedOccupancy loc date cfg cs es / 100) :=
    mul_nonneg (by exact_mod_cast ht) (div_nonneg hocc (by norm_num))
  have hadr : round2 (recommendedPrice loc date cfg cs es) =
      recommendedPrice loc date cfg cs es :=
    round2_round2 (max cfg.minPrice (min cfg.maxPrice (calculatedPrice loc date cs es)))
  refine ⟨?_, ?_, ?_⟩
  · rw [calcP_rooms]
    exact pyInt_eq_floor hprod
  · rw [calcP_revenue, calcP_rooms, calcP_adr, hadr]
    refine round2_eq_self (m := pyInt ((cfg.totalRooms : ℚ) *
      (projectedOccupancy loc date cfg cs es / 100)) *
      pyRoundInt (max cfg.minPrice (min cfg.maxPrice (calculatedPrice loc date cs es)) * 100)) ?_
    rw [show recommendedPrice loc date cfg cs es =
      ((pyRoundInt (max cfg.minPrice (min cfg.maxPrice (calculatedPrice loc date cs es)) * 100) : ℤ) : ℚ) / 100 from rfl]
    push_cast
    ring
  · rw [calcP_revpar, calcP_adr, hadr]
    exact abs_round2_sub _

/-- C2 witness at a concrete input with two competitors. -/
theorem C2_witness :
    (calculate_optimal_pricing "Rome" ⟨2, 10, 30⟩ ⟨100, 65, 80, 500, 3⟩
        [⟨120⟩, ⟨130⟩] []).kpis.rooms_sold =
      ⌊((⟨100, 65, 80, 500, 3⟩ : HotelConfig).totalRooms : ℚ) *
        (projectedOccupancy "Rome" ⟨2, 10, 30⟩ ⟨100, 65, 80, 500, 3⟩
          [⟨120⟩, ⟨130⟩] [] / 100)⌋ ∧
    (calculate_optimal_pricing "Rome" ⟨2, 10, 30⟩ ⟨100, 65, 80, 500, 3⟩
        [⟨120⟩, ⟨130⟩] []).kpis.projected_revenue =
      ((calculate_optimal_pricing "Rome" ⟨2, 10, 30⟩ ⟨100, 65, 80, 500, 3⟩
        [⟨120⟩, ⟨130⟩] []).kpis.rooms_sold : ℚ) *
        (calculate_optimal_pricing "Rome" ⟨2, 10, 30⟩ ⟨100, 65, 80, 500, 3⟩
        [⟨120⟩, ⟨130⟩] []).kpis.adr ∧
    |(calculate_optimal_pricing "Rome" ⟨2, 10, 30⟩ ⟨100, 65, 80, 500, 3⟩
        [⟨120⟩, ⟨130⟩] []).kpis.revpar -
      (calculate_optimal_pricing "Rome" ⟨2, 10, 30⟩ ⟨100, 65, 80, 500, 3⟩
        [⟨120⟩, ⟨130⟩] []).kpis.adr *
        (projectedOccupancy "Rome" ⟨2, 10, 30⟩ ⟨100, 65, 80, 500, 3⟩
          [⟨120⟩, ⟨130⟩] [] / 100)| ≤ 1/200 :=
  C2_kpis_consistent "Rome" ⟨2, 10, 30⟩ ⟨100, 65, 80, 500, 3⟩
    [⟨120⟩, ⟨130⟩] [] (by norm_num) (by norm_num)

/-! ### Claim C3 -/

/-- C3 fails on the code: with `baseOccupancy = 10` and no competitor
data the projected occupancy is reported as 10, below the claimed
25-30 floor — the floor is only applied on the competitor-data path. -/
theorem C3_counterexample :
    (0 : ℚ) ≤ (⟨100, 10, 80, 500, 3⟩ : HotelConfig).baseOccupancy ∧
    (calculate_optimal_pricing "New York" ⟨2, 10, 30⟩ ⟨100, 10, 80, 500, 3⟩
        [] []).projected_occupancy < 25 := by
  constructor
  · norm_num
  · norm_num [calcP_occ, projectedOccupancy, statsOf, filteredPrices,
      occupancyBoost, highEvents, mediumEvents, round1, pyRound, pyRoundInt]

/-- C3 (amended): for any configuration with nonnegative base occupancy
the reported projected occupancy lies in `[0, 95]`, and the lower floor —
which is 30, not 25 — is enforced only when at least one competitor price
above 50 exists; without competitor data the occupancy can drop below 25,
all the way to the supplied base occupancy. -/
theorem C3_occupancy_bounds (loc : String) (date : DateInfo)
    (cfg : HotelConfig) (cs : List Competitor) (es : List MarketEvent)
    (hb : 0 ≤ cfg.baseOccupancy) :
    0 ≤ (calculate_optimal_pricing loc date cfg cs es).projected_occupancy ∧
    (calculate_optimal_pricing loc date cfg cs es).projected_occupancy ≤ 95 ∧
    (filteredPrices cs ≠ [] →
      30 ≤ (calculate_optimal_pricing loc date cfg cs es).projected_occupancy) := by
  rw [calcP_occ]
  refine ⟨?_, ?_, fun h => ?_⟩
  · exact round1_ge_of_ge 0 (by norm_num)
      (projectedOccupancy_nonneg loc date cs es hb)
  · exact round1_le_of_le 950 (by norm_num)
      (projectedOccupancy_le_95 loc date cfg cs es)
  · exact round1_ge_of_ge 300 (by norm_num)
      (projectedOccupancy_ge_30 loc date cfg cs es h)

/-- C3 witness at a concrete input with one competitor priced above 50. -/
theorem C3_witness :
    0 ≤ (calculate_optimal_pricing "Oslo" ⟨4, 3, 2⟩ ⟨100, 65, 80, 500, 3⟩
        [⟨200⟩] []).projected_occupancy ∧
    (calculate_optimal_pricing "Oslo" ⟨4, 3, 2⟩ ⟨100, 65, 80, 500, 3⟩
        [⟨200⟩] []).projected_occupancy ≤ 95 ∧
    30 ≤ (calculate_optimal_pricing "Oslo" ⟨4, 3, 2⟩ ⟨100, 65, 80, 500, 3⟩
        [⟨200⟩] []).projected_occupancy := by
  have h := C3_occupancy_bounds "Oslo" ⟨4, 3, 2⟩ ⟨100, 65, 80, 500, 3⟩
    [⟨200⟩] [] (by norm_num)
  exact ⟨h.1, h.2.1, h.2.2 (by norm_num [filteredPrices])⟩

/-! ### Claim C6 -/

/-- C6 fails on the code: at price ratio 1.2 the claimed band multiplies
the occupancy by 0.85 (65 would become 55.25), but the implementation
adjusts additively by `(1 - 1.2) * 25 = -5` points, reporting 60. -/
theorem C6_counterexample :
    (calculate_optimal_pricing "New York" ⟨2, 10, 30⟩ ⟨100, 65, 120, 500, 3⟩
        [⟨100⟩, ⟨100⟩] []).projected_occupancy = 60 ∧
    specElasticityFactor
      ((calculate_optimal_pricing "New York" ⟨2, 10, 30⟩ ⟨100, 65, 120, 500, 3⟩
          [⟨100⟩, ⟨100⟩] []).recommended_price /
        avgOf (filteredPrices [⟨100⟩, ⟨100⟩])) = 85/100 ∧
    (65 : ℚ) * (85/100) = 5525/100 ∧
    (60 : ℚ) ≠ 5525/100 := by
  have hrec : (calculate_optimal_pricing "New York" ⟨2, 10, 30⟩
      ⟨100, 65, 120, 500, 3⟩ [⟨100⟩, ⟨100⟩] []).recommended_price = 120 := by
    norm_num [calcP_recommended, recommendedPrice, calculatedPrice, basePrice,
      statsOf, filteredPrices, demandMultiplier, highEvents, mediumEvents,
      dowMultiplier, seasonalMultiplier_oct, leadTimeMultiplier, round2,
      pyRound, pyRoundInt]
  refine ⟨?_, ?_, by norm_num, by norm_num⟩
  · norm_num [calcP_occ, projectedOccupancy, recommendedPrice, calculatedPrice,
      basePrice, statsOf, filteredPrices, demandMultiplier, highEvents,
      mediumEvents, occupancyBoost, dowMultiplier, seasonalMultiplier_oct,
      leadTimeMultiplier, round2, round1, pyRound, pyRoundInt]
  · rw [hrec]
    norm_num [specElasticityFactor, avgOf, filteredPrices]

/-- C6 (amended): the occupancy projection has no multiplicative bands;
when competitor data exists it adjusts the boosted base occupancy
additively and linearly by `(1 - price_ratio) * 25` percentage points and
clamps the result into `[30, 95]` (in particular the adjustment is
continuous across ratios 1.05 and 1.06 rather than switching bands), and
without competitor data it reports the boosted base occupancy capped at
95. -/
theorem C6_linear_elasticity (loc : String) (date : DateInfo)
    (cfg : HotelConfig) (cs : List Competitor) (es : List MarketEvent) :
    (calculate_optimal_pricing loc date cfg cs es).projected_occupancy =
      round1 (if filteredPrices cs = [] then
          min 95 (cfg.baseOccupancy + occupancyBoost es)
        else
          min 95 (max 30 (min 95 (cfg.baseOccupancy + occupancyBoost es) +
            (1 - recommendedPrice loc date cfg cs es /
              avgOf (filteredPrices cs)) * 25))) := by
  rw [calcP_occ, projectedOccupancy_eq]

/-! ### Claim C8 -/

/-- C8 fails on the code: with the structurally invalid configuration
`minPrice = 500 > maxPrice = 80` the computation does not raise — it
proceeds and returns a result whose price 500 exceeds `maxPrice`. -/
theorem C8_counterexample :
    (calculate_optimal_pricing "New York" ⟨2, 10, 30⟩ ⟨100, 65, 500, 80, 3⟩
        [] []).recommended_price = 500 ∧
    (⟨100, 65, 500, 80, 3⟩ : HotelConfig).maxPrice <
      (calculate_optimal_pricing "New York" ⟨2, 10, 30⟩ ⟨100, 65, 500, 80, 3⟩
        [] []).recommended_price := by
  have h : (calculate_optimal_pricing "New York" ⟨2, 10, 30⟩
      ⟨100, 65, 500, 80, 3⟩ [] []).recommended_price = 500 := by
    norm_num [calcP_recommended, recommendedPrice, calculatedPrice, basePrice,
      statsOf, filteredPrices, demandMultiplier, highEvents, mediumEvents,
      dowMultiplier, seasonalMultiplier_oct, leadTimeMultiplier, round2,
      pyRound, pyRoundInt]
  rw [h]
  norm_num

/-- C8 (amended): the pricing computation performs no validation of the
configuration and never fails on it; when `minPrice > maxPrice` it
silently collapses the clamp to `minPrice` and returns
`round(minPrice, 2)` as the recommended price. -/
theorem C8_no_validation (loc : String) (date : DateInfo) (cfg : HotelConfig)
    (cs : List Competitor) (es : List MarketEvent)
    (h : cfg.maxPrice < cfg.minPrice) :
    (calculate_optimal_pricing loc date cfg cs es).recommended_price =
      round2 cfg.minPrice := by
  rw [calcP_recommended, recommendedPrice]
  congr 1
  exact max_eq_left (le_of_lt (lt_of_le_of_lt (min_le_left _ _) h))

/-- C8 witness at a concrete invalid configuration. -/
theorem C8_witness :
    (calculate_optimal_pricing "Lima" ⟨1, 9, 45⟩ ⟨50, 70, 300, 200, 4⟩
        [⟨90⟩] []).recommended_price = round2 300 :=
  C8_no_validation "Lima" ⟨1, 9, 45⟩ ⟨50, 70, 300, 200, 4⟩ [⟨90⟩] []
    (by norm_num)

/-! ### Claim C9 -/

theorem targetPrice_ok (rank : ℤ) (comps sorted : List ℚ)
    (hrank : 1 ≤ rank) (hlen : sorted.length = comps.length) :
    ∃ t, targetPrice rank comps sorted = .ok t := by
  unfold targetPrice
  by_cases hr : rank ≤ (comps.length : ℤ)
  · rw [if_pos hr]
    by_cases h1 : rank = 1
    · rw [if_pos h1]
      exact ⟨_, rfl⟩
    · rw [if_neg h1]
      obtain ⟨hi, hhi⟩ := pyGet_some sorted (rank - 2) (by omega)
        (by rw [hlen]; omega)
      obtain ⟨lo, hlo⟩ := pyGet_some sorted (rank - 1) (by omega)
        (by rw [hlen]; omega)
      rw [hhi, hlo]
      exact ⟨_, rfl⟩
  · rw [if_neg hr]
    exact ⟨_, rfl⟩

/-- C9 fails on one boundary of the claim: the non-empty list `[0]`
(price 0) reaches the Python `price_ratio` division with a zero average
and raises ZeroDivisionError, answered as a 500 error — so a non-empty
competitor list does not always produce a price. -/
theorem C9_counterexample :
    price_override 1 [0] ⟨100, 65, 80, 500, 3⟩ =
      Except.error "division by zero" := by
  norm_num [price_override, targetPrice, sortDesc, insertDesc, pyGet]

/-- C9 (amended): with an empty competitor list the override signals the
descriptive error and returns no price; with a non-empty list it returns
a price whenever the requested rank is at least 1 and the prices sum to a
positive amount (so the Python average-price division cannot raise). -/
theorem C9_override_error_handling (rank : ℤ) (cfg : HotelConfig)
    (cs : List ℚ) (hne : cs ≠ []) (hrank : 1 ≤ rank) (hsum : 0 < cs.sum) :
    price_override rank [] cfg = Except.error "No competitor data available" ∧
    (price_override rank cs cfg).isOk = true := by
  refine ⟨rfl, ?_⟩
  unfold price_override
  rw [if_neg hne]
  obtain ⟨t, ht⟩ := targetPrice_ok rank cs (sortDesc cs) hrank (length_sortDesc cs)
  have hlen : 0 < cs.length := List.length_pos.mpr hne
  have havg : cs.sum / (cs.length : ℚ) ≠ 0 :=
    ne_of_gt (div_pos hsum (by exact_mod_cast hlen))
  simp only [ht]
  rw [if_neg havg]
  rfl

/-- C9 witness: rank 1 with two competitors priced 100 and 200. -/
theorem C9_witness :
    price_override 1 [] ⟨100, 65, 80, 500, 3⟩ =
      Except.error "No competitor data available" ∧
    (price_override 1 [(100 : ℚ), 200] ⟨100, 65, 80, 500, 3⟩).isOk = true :=
  C9_override_error_handling 1 ⟨100, 65, 80, 500, 3⟩ [100, 200]
    (by simp) (by norm_num) (by norm_num)

end Demo
